import Mathlib

/-!
Shallow embedding of `simple_time_tracker.py`: a three-state stopwatch
(idle / running / paused) whose Stop action prompts for metadata and appends
one record to a JSONL log and one row to a CSV log.

Wall-clock instants (Python floats from `time.time()`) are modelled as
rationals.  Environment inputs that the handlers read (the dialog outcome,
the generated uuid, whether each file append raises) are passed explicitly
to `on_stop`.  UI chrome (`_update_buttons`, the tick scheduling, window
attributes) has no session-state or log effect and is not modelled.
-/

/-- Python `int(x)` applied to a float difference truncates toward zero;
for a rational `num/den` (with `den > 0`) that is `Int.div num den`. -/
def pyInt (q : ℚ) : ℤ := Int.tdiv q.num q.den

/-- Python whitespace stripped by `str.strip()` (ASCII fragment; the unicode
whitespace code points stripped by Python do not occur in the claims). -/
def pyWhitespace (c : Char) : Bool :=
  c == ' ' || c == '\t' || c == '\n' || c == '\r' || c == '\x0b' || c == '\x0c'

/-- Python `s.strip()`. -/
def pyStrip (s : String) : String :=
  String.mk (((s.data.dropWhile pyWhitespace).reverse.dropWhile pyWhitespace).reverse)

/-- Python `f"{n:02d}"`: decimal rendering zero-padded to a minimum width
of two characters. -/
def pad2 (n : ℤ) : String :=
  if 0 ≤ n ∧ n < 10 then ("0" ++ toString n) else toString n

/-- `fmt_hms` from the source: `h = seconds // 3600`,
`m = (seconds % 3600) // 60`, `s = seconds % 60`, each zero-padded to two
digits.  Python floor division / modulo on a positive divisor coincide with
`Int.ediv` / `Int.emod`, which are `/` and `%` on `ℤ` here. -/
def fmt_hms (seconds : ℤ) : String :=
  pad2 (seconds / 3600) ++ ":" ++ pad2 (seconds % 3600 / 60) ++ ":" ++ pad2 (seconds % 60)

/-- The `STATUSES` list from the source configuration block. -/
def STATUSES : List String :=
  ["done", "in_progress", "blocked", "review", "cancelled", "other"]

/-- The `CSV_HEADER` list from the source. -/
def CSV_HEADER : List String :=
  ["id", "date", "start_iso", "end_iso", "duration_seconds", "duration_hms",
   "ticket_url", "note", "status"]

/-- The `TimeEntry` dataclass. -/
structure TimeEntry where
  id : String
  date : String
  start_iso : String
  end_iso : String
  duration_seconds : ℤ
  duration_hms : String
  ticket_url : String
  note : String
  status : String
deriving DecidableEq, Repr

/-- `TimeEntry.to_row`: the nine field values in declared column order; the
integer `duration_seconds` is rendered in decimal as both `csv.writer`
(via `str`) and `json.dumps` do. -/
def TimeEntry.toRow (e : TimeEntry) : List String :=
  [e.id, e.date, e.start_iso, e.end_iso, toString e.duration_seconds,
   e.duration_hms, e.ticket_url, e.note, e.status]

/-- The three values of the `self.state` string field. -/
inductive TState where
  | idle
  | running
  | paused
deriving DecidableEq, Repr

/-- The session fields of `TimeTrackerApp`: `self.state`,
`self.session_start`, `self.session_end`, `self.accum_seconds`,
`self._last_resume_at`. -/
structure AppState where
  state : TState
  session_start : Option ℚ
  session_end : Option ℚ
  accum_seconds : ℤ
  last_resume_at : Option ℚ
deriving DecidableEq, Repr

/-- The field values set in `TimeTrackerApp.__init__`. -/
def initState : AppState :=
  { state := TState.idle
    session_start := none
    session_end := none
    accum_seconds := 0
    last_resume_at := none }

/-- Observable side effects of one handler invocation, in program order:
opening the modal `EntryDialog`, appending to the JSONL log, appending a
row to the CSV log, `messagebox.showinfo` / `showerror`. -/
inductive Effect where
  | openPrompt (duration_hms : String)
  | appendJsonl (e : TimeEntry)
  | appendCsv (e : TimeEntry)
  | notifyInfo (msg : String)
  | notifyError (msg : String)
deriving DecidableEq, Repr

/-- The raw contents of the three dialog variables (`link_var`, `note_var`,
`status_var`) at the moment the user presses Save. -/
structure RawDialog where
  link : String
  note : String
  status : String
deriving DecidableEq, Repr

/-- The dict built by `EntryDialog._save`. -/
structure Details where
  ticket_url : String
  note : String
  status : String
deriving DecidableEq, Repr

/-- The status value computed by `EntryDialog._save`:
`self.status_var.get().strip() or "other"` — the stripped input, except
that an empty stripped string is replaced by `"other"`. -/
def saveStatus (s : String) : String :=
  if pyStrip s = "" then ("other") else pyStrip s

/-- `EntryDialog._save`: strip the three fields, coercing an empty status
to `"other"`. -/
def saveDialog (raw : RawDialog) : Details :=
  { ticket_url := pyStrip raw.link
    note := pyStrip raw.note
    status := saveStatus raw.status }

/-- Environment inputs consumed by one `on_stop` invocation: the dialog
outcome (`none` models `EntryDialog._cancel`, i.e. `dlg.result is None`),
the uuid produced by `uuid.uuid4()`, whether the JSONL append raises,
whether the CSV append raises, and the exception text interpolated into
the error message. -/
structure StopEnv where
  newId : String
  dialog : Option RawDialog
  jsonlFails : Bool
  csvFails : Bool
  errMsg : String

/-- Modelled from the spec: the timestamp renderings performed by the
`datetime` library (`datetime.fromtimestamp(t, tz=timezone.utc).isoformat()`
and `...astimezone().strftime("%Y-%m-%d")`), which is external library
code, not repository code; the claims use only which instant is rendered,
so the two renderers are parameters of the semantics. -/
structure Render where
  isoUtc : ℚ → String
  localDate : ℚ → String

/-- Python `x or y` on an optional float: `y` when `x` is `None` or `0.0`,
as in `self.session_start or now`. -/
def pyOr (o : Option ℚ) (d : ℚ) : ℚ :=
  match o with
  | none => d
  | some t => if t = 0 then d else t

/-- `TimeTrackerApp.on_play`. -/
def on_play (now : ℚ) (s : AppState) : AppState × List Effect :=
  match s.state with
  | TState.running => (s, [])
  | TState.idle =>
    ({ s with session_start := some now
              accum_seconds := 0
              state := TState.running
              last_resume_at := some now }, [])
  | TState.paused =>
    ({ s with state := TState.running, last_resume_at := some now }, [])

/-- `TimeTrackerApp.on_pause`. -/
def on_pause (now : ℚ) (s : AppState) : AppState × List Effect :=
  if s.state = TState.running then
    ({ s with accum_seconds :=
                match s.last_resume_at with
                | some r => s.accum_seconds + pyInt (now - r)
                | none => s.accum_seconds
              last_resume_at := none
              state := TState.paused }, [])
  else (s, [])

/-- Lines 229–235 of `on_stop`: fold the current running segment into
`accum_seconds` (exactly as Pause does), clear `_last_resume_at`, set the
state to idle, record `session_end = now`. -/
def finalize (now : ℚ) (s : AppState) : AppState :=
  { s with accum_seconds :=
             if s.state = TState.running then
               match s.last_resume_at with
               | some r => s.accum_seconds + pyInt (now - r)
               | none => s.accum_seconds
             else s.accum_seconds
           last_resume_at := none
           state := TState.idle
           session_end := some now }

/-- `TimeTrackerApp._reset_session`. -/
def reset_session (s : AppState) : AppState :=
  { s with accum_seconds := 0
           session_start := none
           session_end := none
           state := TState.idle }

/-- The rollback on cancel / persistence failure: `self.state = "paused"`
and nothing else. -/
def pauseBack (s : AppState) : AppState :=
  { s with state := TState.paused }

/-- The `TimeEntry` construction on lines 256–268: timestamps from
`self.session_start or now` / `self.session_end or now` (applied to the
finalized state `s1` whose `session_end` is `now`), duration from the
accumulated total, metadata from the dialog result. -/
def mkEntry (render : Render) (newId : String) (raw : RawDialog) (now : ℚ)
    (s1 : AppState) : TimeEntry :=
  { id := newId
    date := render.localDate (pyOr s1.session_start now)
    start_iso := render.isoUtc (pyOr s1.session_start now)
    end_iso := render.isoUtc (pyOr s1.session_end now)
    duration_seconds := s1.accum_seconds
    duration_hms := fmt_hms s1.accum_seconds
    ticket_url := (saveDialog raw).ticket_url
    note := (saveDialog raw).note
    status := (saveDialog raw).status }

/-- The `messagebox.showinfo` text of the zero-duration branch. -/
def nothingToSaveMsg : String := "Nothing to save (duration is 0s)."

/-- The `messagebox.showinfo` text of the success branch. -/
def savedMsg : String := "Entry saved."

/-- The `messagebox.showerror` text of the failure branch. -/
def failMsg (e : String) : String := "Failed to write logs: " ++ e

/-- `TimeTrackerApp.on_stop`.  Guard `self.state not in {"running","paused"}`
is `state = idle`; then the segment fold / `session_end` assignment
(`finalize`), the `total_sec <= 0` branch, the dialog (cancel rolls back to
paused), and the two appends in order JSONL-then-CSV inside one `try`,
whose `except` rolls back to paused — an append that raises after the JSONL
append succeeded leaves the JSONL record in place. -/
def on_stop (render : Render) (now : ℚ) (env : StopEnv) (s : AppState) :
    AppState × List Effect :=
  if s.state = TState.idle then (s, [])
  else if (finalize now s).accum_seconds ≤ 0 then
    (reset_session (finalize now s), [Effect.notifyInfo nothingToSaveMsg])
  else
    match env.dialog with
    | none =>
      (pauseBack (finalize now s),
       [Effect.openPrompt (fmt_hms (finalize now s).accum_seconds)])
    | some raw =>
      if env.jsonlFails then
        (pauseBack (finalize now s),
         [Effect.openPrompt (fmt_hms (finalize now s).accum_seconds),
          Effect.notifyError (failMsg env.errMsg)])
      else if env.csvFails then
        (pauseBack (finalize now s),
         [Effect.openPrompt (fmt_hms (finalize now s).accum_seconds),
          Effect.appendJsonl (mkEntry render env.newId raw now (finalize now s)),
          Effect.notifyError (failMsg env.errMsg)])
      else
        (reset_session (finalize now s),
         [Effect.openPrompt (fmt_hms (finalize now s).accum_seconds),
          Effect.appendJsonl (mkEntry render env.newId raw now (finalize now s)),
          Effect.appendCsv (mkEntry render env.newId raw now (finalize now s)),
          Effect.notifyInfo savedMsg])

/-- One user interaction: a button press with the wall-clock instant at
which the handler runs, and, for Stop, the environment inputs it reads. -/
inductive Event where
  | play (now : ℚ)
  | pause (now : ℚ)
  | stop (now : ℚ) (env : StopEnv)

/-- Dispatch one event to its handler. -/
def step (render : Render) (s : AppState) : Event → AppState × List Effect
  | Event.play now => on_play now s
  | Event.pause now => on_pause now s
  | Event.stop now env => on_stop render now env s

/-- The session state after a sequence of events. -/
def runTrace (render : Render) : AppState → List Event → AppState
  | s, [] => s
  | s, e :: es => runTrace render (step render s e).1 es

/-- Number of JSONL append effects in a list. -/
def countJsonl (l : List Effect) : Nat :=
  l.countP fun eff => match eff with | Effect.appendJsonl _ => true | _ => false

/-- Number of CSV append effects in a list. -/
def countCsv (l : List Effect) : Nat :=
  l.countP fun eff => match eff with | Effect.appendCsv _ => true | _ => false

/-! ### Branch equations for `on_stop` and field facts for `finalize` -/

lemma finalize_state (now : ℚ) (s : AppState) :
    (finalize now s).state = TState.idle := rfl

lemma finalize_session_start (now : ℚ) (s : AppState) :
    (finalize now s).session_start = s.session_start := rfl

lemma finalize_session_end (now : ℚ) (s : AppState) :
    (finalize now s).session_end = some now := rfl

lemma finalize_last_resume_at (now : ℚ) (s : AppState) :
    (finalize now s).last_resume_at = none := rfl

lemma finalize_accum_of_not_running (now : ℚ) (s : AppState)
    (h : s.state ≠ TState.running) :
    (finalize now s).accum_seconds = s.accum_seconds := by
  simp [finalize, h]

lemma on_stop_idle (render : Render) (now : ℚ) (env : StopEnv) (s : AppState)
    (h1 : s.state = TState.idle) :
    on_stop render now env s = (s, []) := by
  simp [on_stop, h1]

lemma on_stop_zero (render : Render) (now : ℚ) (env : StopEnv) (s : AppState)
    (h1 : s.state ≠ TState.idle) (h2 : (finalize now s).accum_seconds ≤ 0) :
    on_stop render now env s =
      (reset_session (finalize now s), [Effect.notifyInfo nothingToSaveMsg]) := by
  rw [on_stop, if_neg h1, if_pos h2]

lemma on_stop_cancel (render : Render) (now : ℚ) (env : StopEnv) (s : AppState)
    (h1 : s.state ≠ TState.idle) (h2 : 0 < (finalize now s).accum_seconds)
    (h3 : env.dialog = none) :
    on_stop render now env s =
      (pauseBack (finalize now s),
       [Effect.openPrompt (fmt_hms (finalize now s).accum_seconds)]) := by
  rw [on_stop, if_neg h1, if_neg (not_le.mpr h2), h3]

lemma on_stop_jsonl_fail (render : Render) (now : ℚ) (env : StopEnv)
    (s : AppState) (raw : RawDialog)
    (h1 : s.state ≠ TState.idle) (h2 : 0 < (finalize now s).accum_seconds)
    (h3 : env.dialog = some raw) (h4 : env.jsonlFails = true) :
    on_stop render now env s =
      (pauseBack (finalize now s),
       [Effect.openPrompt (fmt_hms (finalize now s).accum_seconds),
        Effect.notifyError (failMsg env.errMsg)]) := by
  rw [on_stop, if_neg h1, if_neg (not_le.mpr h2), h3]
  simp [h4]

lemma on_stop_csv_fail (render : Render) (now : ℚ) (env : StopEnv)
    (s : AppState) (raw : RawDialog)
    (h1 : s.state ≠ TState.idle) (h2 : 0 < (finalize now s).accum_seconds)
    (h3 : env.dialog = some raw) (h4 : env.jsonlFails = false)
    (h5 : env.csvFails = true) :
    on_stop render now env s =
      (pauseBack (finalize now s),
       [Effect.openPrompt (fmt_hms (finalize now s).accum_seconds),
        Effect.appendJsonl (mkEntry render env.newId raw now (finalize now s)),
        Effect.notifyError (failMsg env.errMsg)]) := by
  rw [on_stop, if_neg h1, if_neg (not_le.mpr h2), h3]
  simp [h4, h5]

lemma on_stop_ok (render : Render) (now : ℚ) (env : StopEnv)
    (s : AppState) (raw : RawDialog)
    (h1 : s.state ≠ TState.idle) (h2 : 0 < (finalize now s).accum_seconds)
    (h3 : env.dialog = some raw) (h4 : env.jsonlFails = false)
    (h5 : env.csvFails = false) :
    on_stop render now env s =
      (reset_session (finalize now s),
       [Effect.openPrompt (fmt_hms (finalize now s).accum_seconds),
        Effect.appendJsonl (mkEntry render env.newId raw now (finalize now s)),
        Effect.appendCsv (mkEntry render env.newId raw now (finalize now s)),
        Effect.notifyInfo savedMsg]) := by
  rw [on_stop, if_neg h1, if_neg (not_le.mpr h2), h3]
  simp [h4, h5]

/-! ### Claim theorems: state-machine shape -/

/-- The invariant of claim C9: `_last_resume_at` is non-`None` exactly in
the running state. -/
def resumeInv (s : AppState) : Prop :=
  s.last_resume_at.isSome = true ↔ s.state = TState.running

/-- C9: the invariant "`resume_instant` is set iff `state = running`" holds
in the initial state and is preserved by every operation — Play, Pause, and
every branch of Stop (zero-duration reset, prompt cancellation, persistence
failure, success). -/
theorem c9_resume_iff_running :
    resumeInv initState ∧
    ∀ (render : Render) (s : AppState) (e : Event),
      resumeInv s → resumeInv (step render s e).1 := by
  constructor
  · simp [resumeInv, initState]
  · intro render s e hs
    cases e with
    | play now =>
      rw [step]
      cases h : s.state with
      | running => simpa [on_play, h, resumeInv] using hs
      | idle => simp [on_play, h, resumeInv]
      | paused => simp [on_play, h, resumeInv]
    | pause now =>
      rw [step]
      by_cases h : s.state = TState.running
      · simp [on_pause, h, resumeInv]
      · rw [on_pause, if_neg h]; exact hs
    | stop now env =>
      rw [step]
      by_cases h1 : s.state = TState.idle
      · rw [on_stop_idle render now env s h1]; exact hs
      · by_cases h2 : (finalize now s).accum_seconds ≤ 0
        · rw [on_stop_zero render now env s h1 h2]
          simp [resumeInv, reset_session, finalize]
        · rcases hd : env.dialog with _ | raw
          · rw [on_stop_cancel render now env s h1 (not_le.mp h2) hd]
            simp [resumeInv, pauseBack, finalize]
          · cases hj : env.jsonlFails with
            | true =>
              rw [on_stop_jsonl_fail render now env s raw h1 (not_le.mp h2) hd hj]
              simp [resumeInv, pauseBack, finalize]
            | false =>
              cases hc : env.csvFails with
              | true =>
                rw [on_stop_csv_fail render now env s raw h1 (not_le.mp h2) hd hj hc]
                simp [resumeInv, pauseBack, finalize]
              | false =>
                rw [on_stop_ok render now env s raw h1 (not_le.mp h2) hd hj hc]
                simp [resumeInv, reset_session, finalize]

/-- C7: Play while running, Pause while not running, and Stop while idle
are no-ops — the state is returned unchanged and the effect list is empty
(no write, no prompt, no notification). -/
theorem c7_noop_disabled_buttons :
    (∀ (now : ℚ) (s : AppState), s.state = TState.running →
      on_play now s = (s, [])) ∧
    (∀ (now : ℚ) (s : AppState), s.state ≠ TState.running →
      on_pause now s = (s, [])) ∧
    (∀ (render : Render) (now : ℚ) (env : StopEnv) (s : AppState),
      s.state = TState.idle → on_stop render now env s = (s, [])) := by
  refine ⟨?_, ?_, ?_⟩
  · intro now s h
    simp [on_play, h]
  · intro now s h
    rw [on_pause, if_neg h]
  · intro render now env s h
    exact on_stop_idle render now env s h

/-! ### Claim theorems: Stop branches -/

/-- C6: Stop with non-positive accumulated total never constructs an entry
and never writes to either log — the only effect is the "nothing to save"
notification — and the machine is reset to idle with zero accumulation
(and cleared session instants). -/
theorem c6_zero_total_no_entry (render : Render) (now : ℚ) (env : StopEnv)
    (s : AppState)
    (h1 : s.state ≠ TState.idle) (h2 : (finalize now s).accum_seconds ≤ 0) :
    (on_stop render now env s).2 = [Effect.notifyInfo nothingToSaveMsg] ∧
    (on_stop render now env s).1.state = TState.idle ∧
    (on_stop render now env s).1.accum_seconds = 0 ∧
    (on_stop render now env s).1.session_start = none ∧
    (on_stop render now env s).1.session_end = none := by
  rw [on_stop_zero render now env s h1 h2]
  exact ⟨rfl, rfl, rfl, rfl, rfl⟩

/-- C4: Stop invoked from paused with a positive accumulated total,
followed by cancellation of the metadata prompt, ends in the paused state
with `accum_seconds` unchanged, and the only effect is opening the prompt —
in particular nothing is appended to either log. -/
theorem c4_cancel_rolls_back (render : Render) (now : ℚ) (env : StopEnv)
    (s : AppState)
    (h1 : s.state = TState.paused) (h2 : 0 < s.accum_seconds)
    (h3 : env.dialog = none) :
    (on_stop render now env s).1.state = TState.paused ∧
    (on_stop render now env s).1.accum_seconds = s.accum_seconds ∧
    (on_stop render now env s).2 =
      [Effect.openPrompt (fmt_hms s.accum_seconds)] := by
  have hne : s.state ≠ TState.idle := by rw [h1]; intro hc; exact absurd hc (by decide)
  have hacc : (finalize now s).accum_seconds = s.accum_seconds :=
    finalize_accum_of_not_running now s (by rw [h1]; intro hc; exact absurd hc (by decide))
  rw [on_stop_cancel render now env s hne (by rw [hacc]; exact h2) h3]
  exact ⟨rfl, hacc, by rw [hacc]⟩

/-- C3: if, during a Stop with positive total, the JSONL append or the CSV
append raises, then a "Failed to write logs" error is surfaced, the state
machine ends in paused instead of idle, and the accumulated total is
preserved (not reset), so a later Stop can retry; the step is a total
function, so the process does not crash. -/
theorem c3_persistence_failure_rolls_back (render : Render) (now : ℚ)
    (env : StopEnv) (s : AppState) (raw : RawDialog)
    (h1 : s.state ≠ TState.idle) (h2 : 0 < (finalize now s).accum_seconds)
    (h3 : env.dialog = some raw)
    (h4 : env.jsonlFails = true ∨ env.csvFails = true) :
    (on_stop render now env s).1.state = TState.paused ∧
    (on_stop render now env s).1.accum_seconds = (finalize now s).accum_seconds ∧
    (on_stop render now env s).1.session_start = s.session_start ∧
    Effect.notifyError (failMsg env.errMsg) ∈ (on_stop render now env s).2 := by
  cases hj : env.jsonlFails with
  | true =>
    rw [on_stop_jsonl_fail render now env s raw h1 h2 h3 hj]
    exact ⟨rfl, rfl, rfl, by simp⟩
  | false =>
    have hc : env.csvFails = true := by
      rcases h4 with h | h
      · rw [hj] at h; exact absurd h (by decide)
      · exact h
    rw [on_stop_csv_fail render now env s raw h1 h2 h3 hj hc]
    exact ⟨rfl, rfl, rfl, by simp⟩

/-- C8: a Stop with positive total in which the user confirms the prompt
and both appends succeed produces exactly the effect list "open prompt,
append one JSONL record, append one CSV row, notify saved" — both appends
carrying the same `TimeEntry` — and resets the session to idle with
`accum_seconds = 0`. -/
theorem c8_success_appends_once_each (render : Render) (now : ℚ)
    (env : StopEnv) (s : AppState) (raw : RawDialog)
    (h1 : s.state ≠ TState.idle) (h2 : 0 < (finalize now s).accum_seconds)
    (h3 : env.dialog = some raw) (h4 : env.jsonlFails = false)
    (h5 : env.csvFails = false) :
    ∃ entry : TimeEntry,
      (on_stop render now env s).2 =
        [Effect.openPrompt (fmt_hms (finalize now s).accum_seconds),
         Effect.appendJsonl entry, Effect.appendCsv entry,
         Effect.notifyInfo savedMsg] ∧
      entry.duration_seconds = (finalize now s).accum_seconds ∧
      entry.id = env.newId ∧
      (on_stop render now env s).1.state = TState.idle ∧
      (on_stop render now env s).1.accum_seconds = 0 := by
  refine ⟨mkEntry render env.newId raw now (finalize now s), ?_⟩
  rw [on_stop_ok render now env s raw h1 h2 h3 h4 h5]
  exact ⟨rfl, rfl, rfl, rfl, rfl⟩

lemma pyOr_some_ne_zero (t d : ℚ) (h : t ≠ 0) : pyOr (some t) d = t := by
  simp [pyOr, h]

lemma pyOr_some_self (d : ℚ) : pyOr (some d) d = d := by
  by_cases h : d = 0 <;> simp [pyOr, h]

/-- C10: the rollback paths of Stop (prompt cancellation and append
failure) produce exactly the finalized session with only the `state` field
set back to paused — `accumulated_seconds` and `session_start` as finalized,
`session_end` holding this Stop's instant, overwritten by the finalization
that every non-idle Stop performs; consequently a later successful Stop
builds its entry with `start_iso` (and `date`) rendered from the original
idle-to-running Play instant and `end_iso` rendered from that final Stop's
instant, not from the cancelled attempt. -/
theorem c10_rollback_touches_only_state (render : Render) (now now2 : ℚ)
    (env1 env2 env3 : StopEnv) (s : AppState) (raw2 raw3 : RawDialog) (t0 : ℚ)
    (h1 : s.state ≠ TState.idle) (h2 : 0 < (finalize now s).accum_seconds)
    (hstart : s.session_start = some t0) (ht0 : t0 ≠ 0)
    (hc1 : env1.dialog = none)
    (hf2 : env2.dialog = some raw2) (hf2j : env2.jsonlFails = true)
    (h3d : env3.dialog = some raw3) (h3j : env3.jsonlFails = false)
    (h3c : env3.csvFails = false) :
    (on_stop render now env1 s).1 = pauseBack (finalize now s) ∧
    (on_stop render now env2 s).1 = pauseBack (finalize now s) ∧
    (∃ entry : TimeEntry,
      (on_stop render now2 env3 (on_stop render now env1 s).1).2 =
        [Effect.openPrompt (fmt_hms (finalize now s).accum_seconds),
         Effect.appendJsonl entry, Effect.appendCsv entry,
         Effect.notifyInfo savedMsg] ∧
      entry.start_iso = render.isoUtc t0 ∧
      entry.date = render.localDate t0 ∧
      entry.end_iso = render.isoUtc now2) := by
  have e1 : on_stop render now env1 s =
      (pauseBack (finalize now s),
       [Effect.openPrompt (fmt_hms (finalize now s).accum_seconds)]) :=
    on_stop_cancel render now env1 s h1 h2 hc1
  have e2 : on_stop render now env2 s =
      (pauseBack (finalize now s),
       [Effect.openPrompt (fmt_hms (finalize now s).accum_seconds),
        Effect.notifyError (failMsg env2.errMsg)]) :=
    on_stop_jsonl_fail render now env2 s raw2 h1 h2 hf2 hf2j
  refine ⟨by rw [e1], by rw [e2], ?_⟩
  rw [e1]
  have hps : (pauseBack (finalize now s)).state = TState.paused := rfl
  have hane : (pauseBack (finalize now s)).state ≠ TState.idle := by
    rw [hps]; intro hc; exact absurd hc (by decide)
  have hacc2 : (finalize now2 (pauseBack (finalize now s))).accum_seconds =
      (finalize now s).accum_seconds :=
    finalize_accum_of_not_running now2 (pauseBack (finalize now s))
      (by rw [hps]; intro hc; exact absurd hc (by decide))
  refine ⟨mkEntry render env3.newId raw3 now2
            (finalize now2 (pauseBack (finalize now s))), ?_, ?_, ?_, ?_⟩
  · rw [on_stop_ok render now2 env3 (pauseBack (finalize now s)) raw3 hane
        (by rw [hacc2]; exact h2) h3d h3j h3c, hacc2]
  · show render.isoUtc
      (pyOr (finalize now2 (pauseBack (finalize now s))).session_start now2) =
        render.isoUtc t0
    rw [finalize_session_start]
    show render.isoUtc (pyOr s.session_start now2) = render.isoUtc t0
    rw [hstart, pyOr_some_ne_zero t0 now2 ht0]
  · show render.localDate
      (pyOr (finalize now2 (pauseBack (finalize now s))).session_start now2) =
        render.localDate t0
    rw [finalize_session_start]
    show render.localDate (pyOr s.session_start now2) = render.localDate t0
    rw [hstart, pyOr_some_ne_zero t0 now2 ht0]
  · show render.isoUtc
      (pyOr (finalize now2 (pauseBack (finalize now s))).session_end now2) =
        render.isoUtc now2
    rw [finalize_session_end, pyOr_some_self]

/-! ### Claim C1: accumulated seconds as the sum of truncated segments -/

/-- Whole-second truncation summed over a list of segment durations. -/
def segSum (g : List ℚ) : ℤ := (g.map pyInt).sum

/-- Ghost bookkeeping: the exact (untruncated) durations of the running
segments completed since the last reset of `accum_seconds` to zero,
extended with `now - resume_instant` wherever the handlers fold a segment
and cleared wherever they reset the accumulator. -/
def gFold (now : ℚ) (s : AppState) (g : List ℚ) : List ℚ :=
  if s.state = TState.running then
    match s.last_resume_at with
    | some r => g ++ [now - r]
    | none => g
  else g

/-- Ghost step mirroring the segment folds and accumulator resets of the
three handlers. -/
def istep (s : AppState) (g : List ℚ) : Event → List ℚ
  | Event.play _ => if s.state = TState.idle then [] else g
  | Event.pause now => gFold now s g
  | Event.stop now env =>
    if s.state = TState.idle then g
    else if (finalize now s).accum_seconds ≤ 0 then []
    else
      match env.dialog with
      | none => gFold now s g
      | some _ =>
        if env.jsonlFails then gFold now s g
        else if env.csvFails then gFold now s g
        else []

/-- Run a trace carrying both the program state and the ghost segment
list. -/
def irun (render : Render) : AppState × List ℚ → List Event → AppState × List ℚ
  | sg, [] => sg
  | (s, g), e :: es => irun render ((step render s e).1, istep s g e) es

lemma segSum_append_one (g : List ℚ) (d : ℚ) :
    segSum (g ++ [d]) = segSum g + pyInt d := by
  simp [segSum]

lemma finalize_accum_gFold (now : ℚ) (s : AppState) (g : List ℚ)
    (h : s.accum_seconds = segSum g) :
    (finalize now s).accum_seconds = segSum (gFold now s g) := by
  rw [finalize, gFold]
  by_cases hr : s.state = TState.running
  · rw [if_pos hr, if_pos hr]
    cases s.last_resume_at with
    | none => exact h
    | some r => simp [segSum_append_one, h]
  · rw [if_neg hr, if_neg hr]; exact h

lemma istep_accum (render : Render) (s : AppState) (g : List ℚ) (e : Event)
    (h : s.accum_seconds = segSum g) :
    ((step render s e).1).accum_seconds = segSum (istep s g e) := by
  cases e with
  | play now =>
    rw [step, istep]
    cases hs : s.state with
    | idle => simp [on_play, hs, segSum]
    | running => simpa [on_play, hs] using h
    | paused => simpa [on_play, hs] using h
  | pause now =>
    rw [step, istep]
    by_cases hr : s.state = TState.running
    · rw [on_pause, if_pos hr, gFold, if_pos hr]
      cases s.last_resume_at with
      | none => exact h
      | some r => simp [segSum_append_one, h]
    · rw [on_pause, if_neg hr, gFold, if_neg hr]; exact h
  | stop now env =>
    rw [step, istep]
    by_cases h1 : s.state = TState.idle
    · rw [on_stop_idle render now env s h1, if_pos h1]; exact h
    · rw [if_neg h1]
      by_cases h2 : (finalize now s).accum_seconds ≤ 0
      · rw [on_stop_zero render now env s h1 h2, if_pos h2]
        simp [reset_session, segSum]
      · rw [if_neg h2]
        rcases hd : env.dialog with _ | raw
        · rw [on_stop_cancel render now env s h1 (not_le.mp h2) hd]
          exact finalize_accum_gFold now s g h
        · cases hj : env.jsonlFails with
          | true =>
            rw [on_stop_jsonl_fail render now env s raw h1 (not_le.mp h2) hd hj]
            simp only [hj, if_true]
            exact finalize_accum_gFold now s g h
          | false =>
            cases hc : env.csvFails with
            | true =>
              rw [on_stop_csv_fail render now env s raw h1 (not_le.mp h2) hd hj hc]
              simp only [hj, hc, Bool.false_eq_true, if_false, if_true]
              exact finalize_accum_gFold now s g h
            | false =>
              rw [on_stop_ok render now env s raw h1 (not_le.mp h2) hd hj hc]
              simp only [hj, hc, Bool.false_eq_true, if_false]
              simp [reset_session, segSum]

lemma irun_fst (render : Render) :
    ∀ (tr : List Event) (s : AppState) (g : List ℚ),
      (irun render (s, g) tr).1 = runTrace render s tr := by
  intro tr
  induction tr with
  | nil => intro s g; rfl
  | cons e es ih => intro s g; rw [irun, runTrace]; exact ih _ _

lemma irun_accum (render : Render) :
    ∀ (tr : List Event) (s : AppState) (g : List ℚ),
      s.accum_seconds = segSum g →
      ((irun render (s, g) tr).1).accum_seconds = segSum (irun render (s, g) tr).2 := by
  intro tr
  induction tr with
  | nil => intro s g h; exact h
  | cons e es ih =>
    intro s g h
    rw [irun]
    exact ih _ _ (istep_accum render s g e h)

/-- C1: for every sequence of Play/Pause/Stop events with associated
wall-clock instants (no precondition needed — disabled-button presses are
no-ops), the accumulated seconds of the reached state equal the sum of the
whole-second truncations of the running segments completed since the last
reset of the accumulator to zero (ghost list carried by `irun`/`istep`);
and every entry a Stop appends carries that accumulated total as its
duration — the total of the finalized state, never a re-derivation from
`end - start`. -/
theorem c1_accum_is_truncated_segment_sum :
    (∀ (render : Render) (tr : List Event),
      (irun render (initState, []) tr).1 = runTrace render initState tr) ∧
    (∀ (render : Render) (tr : List Event),
      ((irun render (initState, []) tr).1).accum_seconds =
        segSum (irun render (initState, []) tr).2) ∧
    (∀ (render : Render) (now : ℚ) (env : StopEnv) (s : AppState)
       (entry : TimeEntry),
      Effect.appendJsonl entry ∈ (on_stop render now env s).2 →
      entry.duration_seconds = (finalize now s).accum_seconds) := by
  refine ⟨fun render tr => irun_fst render tr initState [],
          fun render tr => irun_accum render tr initState [] rfl, ?_⟩
  intro render now env s entry hmem
  by_cases h1 : s.state = TState.idle
  · rw [on_stop_idle render now env s h1] at hmem
    simp at hmem
  · by_cases h2 : (finalize now s).accum_seconds ≤ 0
    · rw [on_stop_zero render now env s h1 h2] at hmem
      simp at hmem
    · rcases hd : env.dialog with _ | raw
      · rw [on_stop_cancel render now env s h1 (not_le.mp h2) hd] at hmem
        simp at hmem
      · cases hj : env.jsonlFails with
        | true =>
          rw [on_stop_jsonl_fail render now env s raw h1 (not_le.mp h2) hd hj]
            at hmem
          simp at hmem
        | false =>
          cases hc : env.csvFails with
          | true =>
            rw [on_stop_csv_fail render now env s raw h1 (not_le.mp h2) hd hj hc]
              at hmem
            simp at hmem
            rw [hmem, mkEntry]
          | false =>
            rw [on_stop_ok render now env s raw h1 (not_le.mp h2) hd hj hc]
              at hmem
            simp at hmem
            rw [hmem, mkEntry]

/-! ### Claim C5: the status coercion of `EntryDialog._save` -/

/-- C5 (amended): the persisted status is the stripped input unless
stripping yields the empty string, in which case it is coerced to
`"other"`; hence a blank status yields `"other"` and every submitted value
of the fixed enumeration persists as itself — but an unrecognized
non-empty input is persisted verbatim, not coerced. -/
theorem c5_status_strip_or_other :
    ∀ s : String,
      (pyStrip s = "" → saveStatus s = "other") ∧
      (pyStrip s ≠ "" → saveStatus s = pyStrip s) ∧
      (s ∈ STATUSES → saveStatus s ∈ STATUSES) := by
  intro s
  refine ⟨fun h => by rw [saveStatus, if_pos h],
          fun h => by rw [saveStatus, if_neg h],
          fun h => ?_⟩
  fin_cases h <;> decide

/-- Counterexample to C5 as stated: the unrecognized non-empty input
`"foo"` is persisted verbatim by `EntryDialog._save`, and it is not a
member of the fixed status set — the code coerces only the
empty-after-strip input to `"other"`. -/
theorem c5_counterexample_unrecognized_kept :
    saveStatus ("foo") = ("foo") ∧ ("foo" : String) ∉ STATUSES := by
  exact ⟨by decide, by decide⟩

/-! ### Claim C2: the CSV row of an entry and its reconstruction

`csv.writer` with the default dialect (QUOTE_MINIMAL, delimiter `,`,
quote char `"`): a field is quoted iff it contains the delimiter, the
quote char, or a line-terminator character, and quote chars are doubled;
`writerow` joins the escaped fields with commas.  The parser below is the
reconstruction function for the round-trip property; it is spec-side, not
source code. -/

def csvSpecial (c : Char) : Bool := c == ',' || c == '"' || c == '\r' || c == '\n'

def needsQuote (f : List Char) : Bool := f.any csvSpecial

def escInner : List Char → List Char
  | [] => []
  | c :: cs => if c = '"' then '"' :: '"' :: escInner cs else c :: escInner cs

def escField (f : List Char) : List Char :=
  if needsQuote f then '"' :: (escInner f ++ ['"']) else f

def rowChars : List (List Char) → List Char
  | [] => []
  | [f] => escField f
  | f :: fs => escField f ++ ',' :: rowChars fs

def notComma (c : Char) : Bool := !(c == ',')

def parseQuoted : List Char → Option (List Char × List Char)
  | [] => none
  | [c] => if c = '"' then some ([], []) else none
  | c :: d :: rest =>
    if c = '"' then
      if d = '"' then
        match parseQuoted rest with
        | some (f, r) => some ('"' :: f, r)
        | none => none
      else some ([], d :: rest)
    else
      match parseQuoted (d :: rest) with
      | some (f, r) => some (c :: f, r)
      | none => none

def parseRowAux : Nat → List Char → Option (List (List Char))
  | 0, _ => none
  | fuel + 1, l =>
    if l.head? = some '"' then
      match parseQuoted l.tail with
      | none => none
      | some (f, r) =>
        match r with
        | [] => some [f]
        | c :: r2 =>
          if c = ',' then
            match parseRowAux fuel r2 with
            | some fs => some (f :: fs)
            | none => none
          else none
    else
      match l.dropWhile notComma with
      | [] => some [l.takeWhile notComma]
      | _ :: r2 =>
        match parseRowAux fuel r2 with
        | some fs => some (l.takeWhile notComma :: fs)
        | none => none

def csvParseRow (l : List Char) : Option (List (List Char)) :=
  parseRowAux (l.length + 1) l

lemma parseQuoted_escInner :
    ∀ (f rest : List Char), rest.head? ≠ some '"' →
      parseQuoted (escInner f ++ '"' :: rest) = some (f, rest) := by
  intro f
  induction f with
  | nil =>
    intro rest hr
    cases rest with
    | nil => rfl
    | cons d rest' =>
      have hd : d ≠ '"' := by
        intro hc; apply hr; rw [List.head?, hc]
      show parseQuoted ('"' :: d :: rest') = some ([], d :: rest')
      rw [parseQuoted, if_pos rfl, if_neg hd]
  | cons c f' ih =>
    intro rest hr
    by_cases hc : c = '"'
    · subst hc
      show parseQuoted ('"' :: '"' :: (escInner f' ++ '"' :: rest)) =
        some ('"' :: f', rest)
      rw [parseQuoted, if_pos rfl, if_pos rfl, ih rest hr]
    · have hsplit : escInner (c :: f') ++ '"' :: rest =
          c :: (escInner f' ++ '"' :: rest) := by
        rw [escInner, if_neg hc, List.cons_append]
      rw [hsplit]
      cases ht : escInner f' ++ '"' :: rest with
      | nil => exact absurd ht (by simp)
      | cons d rest2 =>
        rw [parseQuoted, if_neg hc, ← ht, ih rest hr]

lemma takeWhile_all_append (p : Char → Bool) :
    ∀ (f l : List Char), (∀ c ∈ f, p c = true) →
      List.takeWhile p (f ++ l) = f ++ List.takeWhile p l := by
  intro f
  induction f with
  | nil => intro l _; rfl
  | cons c f' ih =>
    intro l h
    rw [List.cons_append, List.takeWhile_cons, h c (List.mem_cons_self c f'),
        if_pos rfl, ih l (fun d hd => h d (List.mem_cons_of_mem c hd)),
        List.cons_append]

lemma dropWhile_all_append (p : Char → Bool) :
    ∀ (f l : List Char), (∀ c ∈ f, p c = true) →
      List.dropWhile p (f ++ l) = List.dropWhile p l := by
  intro f
  induction f with
  | nil => intro l _; rfl
  | cons c f' ih =>
    intro l h
    rw [List.cons_append, List.dropWhile_cons, h c (List.mem_cons_self c f'),
        if_pos rfl, ih l (fun d hd => h d (List.mem_cons_of_mem c hd))]

lemma noQuote_chars (f : List Char) (h : needsQuote f = false) :
    ∀ c ∈ f, c ≠ ',' ∧ c ≠ '"' := by
  intro c hc
  rw [needsQuote, List.any_eq_false] at h
  have h2 := h c hc
  simp only [csvSpecial, Bool.or_eq_true, beq_iff_eq, not_or] at h2
  exact ⟨h2.1.1.1, h2.1.1.2⟩

lemma notComma_of_noQuote (f : List Char) (h : needsQuote f = false) :
    ∀ c ∈ f, notComma c = true := by
  intro c hc
  have := (noQuote_chars f h c hc).1
  rw [notComma]
  simp [this]

lemma dropWhile_all (p : Char → Bool) (f : List Char)
    (h : ∀ c ∈ f, p c = true) : List.dropWhile p f = [] := by
  have := dropWhile_all_append p f [] h
  rwa [List.append_nil] at this

lemma takeWhile_all (p : Char → Bool) (f : List Char)
    (h : ∀ c ∈ f, p c = true) : List.takeWhile p f = f := by
  have := takeWhile_all_append p f [] h
  rwa [List.takeWhile_nil, List.append_nil] at this

lemma unquoted_head_ne (f : List Char) (hq : needsQuote f = false) :
    ∀ l : List Char, (f ++ l).head? = some '"' → l.head? = some '"' ∧ f = [] := by
  intro l h
  cases f with
  | nil => exact ⟨h, rfl⟩
  | cons c f' =>
    rw [List.cons_append, List.head?_cons, Option.some_inj] at h
    exact absurd h (noQuote_chars (c :: f') hq c (List.mem_cons_self c f')).2

lemma parseRowAux_rowChars :
    ∀ (fs : List (List Char)) (fuel : Nat), fs ≠ [] → fs.length ≤ fuel + 1 →
      parseRowAux (fuel + 1) (rowChars fs) = some fs := by
  intro fs
  induction fs with
  | nil => intro fuel h _; exact absurd rfl h
  | cons f fs ih =>
    intro fuel _ hlen
    cases fs with
    | nil =>
      show parseRowAux (fuel + 1) (escField f) = some [f]
      by_cases hq : needsQuote f = true
      · rw [escField, if_pos hq, parseRowAux]
        simp only [List.head?_cons, List.tail_cons]
        rw [if_pos trivial]
        have hsg : escInner f ++ ['"'] = escInner f ++ '"' :: [] := rfl
        rw [hsg, parseQuoted_escInner f [] (by simp)]
      · rw [Bool.not_eq_true] at hq
        rw [escField, if_neg (by rw [hq]; exact Bool.false_ne_true), parseRowAux]
        rw [if_neg ?hne1]
        case hne1 =>
          intro hcontra
          cases f with
          | nil => simp at hcontra
          | cons c f2 =>
            rw [List.head?_cons, Option.some_inj] at hcontra
            exact (noQuote_chars (c :: f2) hq c (List.mem_cons_self c f2)).2 hcontra
        rw [dropWhile_all notComma f (notComma_of_noQuote f hq),
            takeWhile_all notComma f (notComma_of_noQuote f hq)]
    | cons g gs =>
      show parseRowAux (fuel + 1) (escField f ++ ',' :: rowChars (g :: gs)) =
        some (f :: g :: gs)
      cases fuel with
      | zero => simp at hlen
      | succ n =>
        have hlen2 : (g :: gs).length ≤ n + 1 := by
          simp only [List.length_cons] at hlen ⊢
          omega
        by_cases hq : needsQuote f = true
        · have hsplit : escField f ++ ',' :: rowChars (g :: gs) =
              '"' :: (escInner f ++ '"' :: (',' :: rowChars (g :: gs))) := by
            rw [escField, if_pos hq, List.cons_append, List.append_assoc]
            rfl
          rw [hsplit, parseRowAux]
          simp only [List.head?_cons, List.tail_cons]
          rw [if_pos trivial,
              parseQuoted_escInner f (',' :: rowChars (g :: gs)) (by simp)]
          simp only [ih n (by simp) hlen2]
          rw [if_pos trivial]
        · rw [Bool.not_eq_true] at hq
          have hsplit : escField f ++ ',' :: rowChars (g :: gs) =
              f ++ ',' :: rowChars (g :: gs) := by
            rw [escField, if_neg (by rw [hq]; exact Bool.false_ne_true)]
          rw [hsplit, parseRowAux]
          rw [if_neg ?hne2]
          case hne2 =>
            intro hcontra
            rcases unquoted_head_ne f hq (',' :: rowChars (g :: gs)) hcontra
              with ⟨hhd, _⟩
            rw [List.head?_cons, Option.some_inj] at hhd
            exact absurd hhd (by decide)
          rw [dropWhile_all_append notComma f _ (notComma_of_noQuote f hq),
              takeWhile_all_append notComma f _ (notComma_of_noQuote f hq),
              List.dropWhile_cons, List.takeWhile_cons]
          have hnc : notComma ',' = false := rfl
          rw [hnc]
          simp only [Bool.false_eq_true, if_false, List.append_nil]
          simp only [ih n (by simp) hlen2]

lemma length_le_rowChars :
    ∀ fs : List (List Char), fs.length ≤ (rowChars fs).length + 1 := by
  intro fs
  induction fs with
  | nil => simp [rowChars]
  | cons f fs ih =>
    cases fs with
    | nil => simp [rowChars]
    | cons g gs =>
      show (f :: g :: gs).length ≤
        (escField f ++ ',' :: rowChars (g :: gs)).length + 1
      simp only [List.length_cons, List.length_append] at ih ⊢
      omega

lemma csvParseRow_rowChars (fs : List (List Char)) (h : fs ≠ []) :
    csvParseRow (rowChars fs) = some fs := by
  rw [csvParseRow]
  exact parseRowAux_rowChars fs (rowChars fs).length h (length_le_rowChars fs)

/-- C2 (amended): every field of an entry is byte-exactly reconstructible
from its tabular row — the CSV row built from the nine `to_row` field
strings parses back to exactly those strings in the declared column order,
whose length matches `CSV_HEADER` — and a failure-free Stop appends
matching records to both logs; however, when the CSV append fails after
the JSONL append succeeded, the run leaves one structured-log record with
no tabular counterpart (the failure is surfaced and the session rolled
back, but the JSONL record is not removed). -/
theorem c2_row_reconstructs_entry :
    (∀ fields : List (List Char), fields ≠ [] →
      csvParseRow (rowChars fields) = some fields) ∧
    (∀ e : TimeEntry,
      csvParseRow (rowChars (e.toRow.map String.data)) =
        some (e.toRow.map String.data)) ∧
    (∀ e : TimeEntry, e.toRow.length = CSV_HEADER.length) ∧
    (∀ (render : Render) (now : ℚ) (env : StopEnv) (s : AppState)
       (raw : RawDialog),
      s.state ≠ TState.idle → 0 < (finalize now s).accum_seconds →
      env.dialog = some raw → env.jsonlFails = false → env.csvFails = true →
      countJsonl (on_stop render now env s).2 = 1 ∧
      countCsv (on_stop render now env s).2 = 0) := by
  refine ⟨fun fields h => csvParseRow_rowChars fields h,
          fun e => csvParseRow_rowChars _ (by simp [TimeEntry.toRow]),
          fun e => rfl, ?_⟩
  intro render now env s raw h1 h2 h3 h4 h5
  rw [on_stop_csv_fail render now env s raw h1 h2 h3 h4 h5]
  exact ⟨rfl, rfl⟩

/-! ### Concrete scenario used by witnesses and counterexamples -/

/-- A concrete instantiation of the timestamp renderers (numerator of the
rational instant in decimal); any renderer works for the claims. -/
def render0 : Render :=
  { isoUtc := fun q => toString q.num, localDate := fun q => toString q.num }

/-- A paused session: Play at 3, Pause after 5 accumulated seconds. -/
def sPaused : AppState :=
  { state := TState.paused
    session_start := some 3
    session_end := none
    accum_seconds := 5
    last_resume_at := none }

/-- A running session. -/
def sRunning : AppState :=
  { state := TState.running
    session_start := some 3
    session_end := none
    accum_seconds := 0
    last_resume_at := some 3 }

/-- Concrete dialog input. -/
def rawDlg : RawDialog :=
  { link := " http://x ", note := "a note", status := "done" }

/-- Stop environment: confirmed dialog, both appends succeed. -/
def envOk : StopEnv :=
  { newId := "id1", dialog := some rawDlg, jsonlFails := false,
    csvFails := false, errMsg := "" }

/-- Stop environment: user cancels the prompt. -/
def envCancel : StopEnv := { envOk with dialog := none }

/-- Stop environment: the JSONL append raises. -/
def envJsonlFail : StopEnv := { envOk with jsonlFails := true, errMsg := "disk full" }

/-- Stop environment: the CSV append raises (after the JSONL append
succeeded). -/
def envCsvFail : StopEnv := { envOk with csvFails := true, errMsg := "disk full" }

/-- Counterexample to C2 as stated: in the concrete run where the CSV
append raises, the structured log receives one record while the tabular
log receives none — a run CAN leave a record in one log without its
counterpart in the other. -/
theorem c2_counterexample_orphan_record :
    countJsonl (on_stop render0 10 envCsvFail sPaused).2 = 1 ∧
    countCsv (on_stop render0 10 envCsvFail sPaused).2 = 0 := by
  exact ⟨by decide, by decide⟩

/-- Witness for C2 (amended), at a row whose fields contain the delimiter,
the quote character and a newline, and at the concrete CSV-failure run. -/
theorem c2_witness :
    csvParseRow (rowChars
        [("a,b").data, ("c\"d").data, ("line1\nline2").data, ("plain").data]) =
      some [("a,b").data, ("c\"d").data, ("line1\nline2").data, ("plain").data] ∧
    (countJsonl (on_stop render0 20 envCsvFail sPaused).2 = 1 ∧
     countCsv (on_stop render0 20 envCsvFail sPaused).2 = 0) :=
  ⟨c2_row_reconstructs_entry.1 _ (by decide),
   c2_row_reconstructs_entry.2.2.2 render0 20 envCsvFail sPaused rawDlg
     (by decide) (by decide) rfl rfl rfl⟩

/-! ### Witnesses -/

/-- A paused session with nothing accumulated. -/
def sPausedZero : AppState := { sPaused with accum_seconds := 0 }

/-- The entry built by the successful concrete Stop. -/
def entry0 : TimeEntry :=
  mkEntry render0 envOk.newId rawDlg 10 (finalize 10 sPaused)

/-- Witness for C1 at the concrete successful Stop: the appended entry
carries the finalized accumulated total as its duration. -/
theorem c1_witness :
    entry0.duration_seconds = (finalize 10 sPaused).accum_seconds :=
  c1_accum_is_truncated_segment_sum.2.2 render0 10 envOk sPaused entry0
    (by rw [on_stop_ok render0 10 envOk sPaused rawDlg (by decide) (by decide)
              rfl rfl rfl]
        simp [entry0])

/-- Witness for C3 at the concrete JSONL-failure Stop. -/
theorem c3_witness :
    (on_stop render0 10 envJsonlFail sPaused).1.state = TState.paused ∧
    (on_stop render0 10 envJsonlFail sPaused).1.accum_seconds =
      (finalize 10 sPaused).accum_seconds ∧
    (on_stop render0 10 envJsonlFail sPaused).1.session_start =
      sPaused.session_start ∧
    Effect.notifyError (failMsg envJsonlFail.errMsg) ∈
      (on_stop render0 10 envJsonlFail sPaused).2 :=
  c3_persistence_failure_rolls_back render0 10 envJsonlFail sPaused rawDlg
    (by decide) (by decide) rfl (Or.inl rfl)

/-- Witness for C4 at the concrete cancelled Stop. -/
theorem c4_witness :
    (on_stop render0 10 envCancel sPaused).1.state = TState.paused ∧
    (on_stop render0 10 envCancel sPaused).1.accum_seconds =
      sPaused.accum_seconds ∧
    (on_stop render0 10 envCancel sPaused).2 =
      [Effect.openPrompt (fmt_hms sPaused.accum_seconds)] :=
  c4_cancel_rolls_back render0 10 envCancel sPaused rfl (by decide) rfl

/-- Witness for C5 (amended) at a blank status, a padded recognized
status, and a recognized status. -/
theorem c5_witness :
    saveStatus ("") = "other" ∧
    saveStatus (" done ") = pyStrip (" done ") ∧
    saveStatus ("done") ∈ STATUSES :=
  ⟨(c5_status_strip_or_other "").1 (by decide),
   (c5_status_strip_or_other " done ").2.1 (by decide),
   (c5_status_strip_or_other "done").2.2 (by decide)⟩

/-- Witness for C6 at the concrete zero-total Stop. -/
theorem c6_witness :
    (on_stop render0 10 envOk sPausedZero).2 =
      [Effect.notifyInfo nothingToSaveMsg] ∧
    (on_stop render0 10 envOk sPausedZero).1.state = TState.idle ∧
    (on_stop render0 10 envOk sPausedZero).1.accum_seconds = 0 ∧
    (on_stop render0 10 envOk sPausedZero).1.session_start = none ∧
    (on_stop render0 10 envOk sPausedZero).1.session_end = none :=
  c6_zero_total_no_entry render0 10 envOk sPausedZero (by decide) (by decide)

/-- Witness for C7 at concrete disabled-button presses. -/
theorem c7_witness :
    on_play 5 sRunning = (sRunning, []) ∧
    on_pause 5 sPaused = (sPaused, []) ∧
    on_stop render0 5 envOk initState = (initState, []) :=
  ⟨c7_noop_disabled_buttons.1 5 sRunning rfl,
   c7_noop_disabled_buttons.2.1 5 sPaused (by decide),
   c7_noop_disabled_buttons.2.2 render0 5 envOk initState rfl⟩

/-- Witness for C8 at the concrete successful Stop. -/
theorem c8_witness :
    ∃ entry : TimeEntry,
      (on_stop render0 10 envOk sPaused).2 =
        [Effect.openPrompt (fmt_hms (finalize 10 sPaused).accum_seconds),
         Effect.appendJsonl entry, Effect.appendCsv entry,
         Effect.notifyInfo savedMsg] ∧
      entry.duration_seconds = (finalize 10 sPaused).accum_seconds ∧
      entry.id = envOk.newId ∧
      (on_stop render0 10 envOk sPaused).1.state = TState.idle ∧
      (on_stop render0 10 envOk sPaused).1.accum_seconds = 0 :=
  c8_success_appends_once_each render0 10 envOk sPaused rawDlg
    (by decide) (by decide) rfl rfl rfl

/-- Witness for C9 at a concrete Play from paused. -/
theorem c9_witness : resumeInv (step render0 sPaused (Event.play 4)).1 :=
  c9_resume_iff_running.2 render0 sPaused (Event.play 4)
    (by simp [resumeInv, sPaused])

/-- Witness for C10 at the concrete cancel-then-retry scenario. -/
theorem c10_witness :
    (on_stop render0 10 envCancel sPaused).1 =
      pauseBack (finalize 10 sPaused) ∧
    (on_stop render0 10 envJsonlFail sPaused).1 =
      pauseBack (finalize 10 sPaused) ∧
    (∃ entry : TimeEntry,
      (on_stop render0 20 envOk (on_stop render0 10 envCancel sPaused).1).2 =
        [Effect.openPrompt (fmt_hms (finalize 10 sPaused).accum_seconds),
         Effect.appendJsonl entry, Effect.appendCsv entry,
         Effect.notifyInfo savedMsg] ∧
      entry.start_iso = render0.isoUtc 3 ∧
      entry.date = render0.localDate 3 ∧
      entry.end_iso = render0.isoUtc 20) :=
  c10_rollback_touches_only_state render0 10 20 envCancel envJsonlFail envOk
    sPaused rawDlg rawDlg 3 (by decide) (by decide) rfl (by decide)
    rfl rfl rfl rfl rfl rfl
